import Mathlib

/-!
Shallow embedding of `src/docusaurus.config.js` from the python_book
repository.  The module builds one configuration object, registers three
plugins (an inline analytics-script injector, the local-search module with
an options mapping, and an image-zoom plugin path), and exports the object.
JavaScript module references obtained through `require` / `require.resolve`
are modelled opaquely as the module-specifier string.  Dynamic JavaScript
values (the argument of the `injectHtmlTags` lifecycle hook and the option
mappings handed to third-party plugins) are modelled by the inductive type
`JSValue`; a thrown `TypeError` is modelled by `Except.error`.
-/

/-- A JavaScript value, as far as the configuration module manipulates
them: `undefined`, `null`, booleans, numbers, strings, arrays and plain
objects (ordered key/value lists). -/
inductive JSValue where
  | undefined : JSValue
  | null : JSValue
  | bool : Bool → JSValue
  | num : Int → JSValue
  | str : String → JSValue
  | arr : List JSValue → JSValue
  | obj : List (String × JSValue) → JSValue

/-- JavaScript object destructuring of a single property, as performed by
the parameter pattern of the hook at `src/docusaurus.config.js:87`.
Destructuring `undefined` or `null` throws a `TypeError`; destructuring any
other value reads the property (missing properties, and every property of a
primitive, read as `undefined`). -/
def destructureProp (k : String) : JSValue → Except String JSValue
  | JSValue.undefined =>
      Except.error ("TypeError: Cannot destructure property of undefined")
  | JSValue.null =>
      Except.error ("TypeError: Cannot destructure property of null")
  | JSValue.obj fields => Except.ok ((fields.lookup k).getD JSValue.undefined)
  | _ => Except.ok JSValue.undefined

/-- The literal Baidu analytics script tag from `src/docusaurus.config.js:89`. -/
def baiduScriptTag : String :=
  "<script type=\"text/javascript\" src=\"https://hm.baidu.com/hm.js?b3f6e7ec9302021671173e3fad14f4cd\"></script>"

/-- The `injectHtmlTags` lifecycle hook of the inline analytics plugin
(`src/docusaurus.config.js:87-92`): it destructures `content` from its
argument (and then ignores it) and returns an object whose only field is
`postBodyTags`, a one-element array holding the literal script tag. -/
def injectHtmlTags (arg : JSValue) : Except String JSValue :=
  (destructureProp ("content") arg).map (fun _content =>
    JSValue.obj [(("postBodyTags"), JSValue.arr [JSValue.str baiduScriptTag])])

/-- The plugin object returned by `baiduPlugin`: a name and the
`injectHtmlTags` hook. -/
structure PluginModule where
  name : String
  injectHtmlTags : JSValue → Except String JSValue

/-- The inline analytics plugin function at `src/docusaurus.config.js:84-94`:
given the framework context and options (both ignored), it returns the
plugin object named `baidu-plugin` carrying the `injectHtmlTags` hook. -/
def baiduPlugin (_context _options : JSValue) : PluginModule :=
  { name := "baidu-plugin", injectHtmlTags := injectHtmlTags }

/-- Node module resolution (`require.resolve`), an external collaborator:
modelled opaquely, the resolved module is identified by its specifier. -/
def requireResolve (specifier : String) : String := specifier

/-- Node module loading (`require`), an external collaborator: modelled
opaquely, the loaded module is identified by its specifier. -/
def requireModule (specifier : String) : String := specifier

/-- One entry of the `plugins` array: either an inline plugin function, a
`[module, options]` pair, or a bare module path. -/
inductive PluginEntry where
  | inlineFn : (JSValue → JSValue → PluginModule) → PluginEntry
  | moduleWithOptions : String → List (String × JSValue) → PluginEntry
  | modulePath : String → PluginEntry

/-- The module specifier of the third-party local-search plugin. -/
def searchLocalModuleName : String := "@easyops-cn/docusaurus-search-local"

/-- The options mapping handed to the local-search plugin
(`src/docusaurus.config.js:97-102`). -/
def searchLocalOptions : List (String × JSValue) :=
  [ (("hashed"), JSValue.bool true),
    (("language"), JSValue.arr [JSValue.str ("en"), JSValue.str ("zh")]),
    (("docsRouteBasePath"), JSValue.str ("/")),
    (("highlightSearchTermsOnTargetPage"), JSValue.bool true) ]

/-- The `docs` options of the classic preset (`src/docusaurus.config.js:24-33`). -/
structure DocsOptions where
  sidebarPath : String
  sidebarCollapsed : Bool
  editUrl : String
  routeBasePath : String
  path : String
  remarkPlugins : List String
  rehypePlugins : List String

/-- The `theme` options of the classic preset. -/
structure ThemeOptions where
  customCss : String

/-- The `sitemap` options of the classic preset. -/
structure SitemapOptions where
  changefreq : String
  priority : Rat

/-- The `gtag` options of the classic preset. -/
structure GtagOptions where
  trackingID : String

/-- The options object of the classic preset (`src/docusaurus.config.js:23-45`);
`blog: false` disables the blog. -/
structure PresetOptions where
  docs : DocsOptions
  blog : JSValue
  theme : ThemeOptions
  sitemap : SitemapOptions
  gtag : GtagOptions

/-- One entry of the `presets` array: a preset name with its options. -/
structure PresetEntry where
  presetName : String
  options : PresetOptions

/-- The options object handed to the classic preset. -/
def classicPresetOptions : PresetOptions :=
  { docs :=
      { sidebarPath := requireResolve ("./sidebars.js"),
        sidebarCollapsed := false,
        editUrl := "https://github.com/ruanqizhen/python_book/edit/main/",
        routeBasePath := "/",
        path := "./docs",
        remarkPlugins := [requireModule ("remark-math")],
        rehypePlugins := [requireModule ("rehype-katex")] },
    blog := JSValue.bool false,
    theme := { customCss := requireResolve ("./src/css/custom.css") },
    sitemap := { changefreq := "weekly", priority := 0.5 },
    gtag := { trackingID := "G-9EFRGQK2N0" } }

/-- The navbar logo of the theme configuration. -/
structure NavbarLogo where
  alt : String
  src : String
  href : String

/-- The navbar of the theme configuration. -/
structure NavbarConfig where
  hideOnScroll : Bool
  title : String
  logo : NavbarLogo

/-- The color-mode options of the theme configuration. -/
structure ColorModeConfig where
  defaultMode : String
  disableSwitch : Bool
  respectPrefersColorScheme : Bool

/-- The code-highlighting themes of the theme configuration. -/
structure PrismConfig where
  theme : String
  darkTheme : String

/-- One `<meta>` entry of the theme configuration. -/
structure MetaEntry where
  name : String
  content : String

/-- The theme configuration (`src/docusaurus.config.js:49-82`). -/
structure ThemeConfig where
  sidebarHideable : Bool
  colorMode : ColorModeConfig
  navbar : NavbarConfig
  prism : PrismConfig
  zoomSelector : String
  metadata : List MetaEntry

/-- One entry of the `stylesheets` array (`src/docusaurus.config.js:107-113`). -/
structure Stylesheet where
  href : String
  type : String
  integrity : String
  crossorigin : String

/-- The shape of the exported configuration object. -/
structure Config where
  title : String
  tagline : String
  url : String
  baseUrl : String
  onBrokenLinks : String
  onBrokenMarkdownLinks : String
  favicon : String
  projectName : String
  presets : List PresetEntry
  themeConfig : ThemeConfig
  plugins : List PluginEntry
  stylesheets : List Stylesheet

/-- The configuration object built once at module evaluation and exported
by `src/docusaurus.config.js:10-117`. -/
def config : Config :=
  { title := "Python 教程",
    tagline := "Python, 编程, 经验, 教程, 开源, 免费, 电子书, 下载, PDF, 示例, 面试",
    url := "https://py.qizhen.xyz",
    baseUrl := "/",
    onBrokenLinks := "throw",
    onBrokenMarkdownLinks := "warn",
    favicon := "img/favicon.ico",
    projectName := "python_book",
    presets := [{ presetName := "classic", options := classicPresetOptions }],
    themeConfig :=
      { sidebarHideable := true,
        colorMode :=
          { defaultMode := "light",
            disableSwitch := false,
            respectPrefersColorScheme := true },
        navbar :=
          { hideOnScroll := true,
            title := "Python 教程",
            logo := { alt := "Python", src := "img/logo.png", href := "/" } },
        prism :=
          { theme := requireModule ("prism-react-renderer/themes/github"),
            darkTheme := requireModule ("prism-react-renderer/themes/dracula") },
        zoomSelector := ".markdown img",
        metadata :=
          [ { name := "keywords",
              content := "Python, 编程, 经验, 教程, 开源, 免费, 电子书, 下载, PDF, 示例, 面试" },
            { name := "description", content := "Python 学习 面试" },
            { name := "author", content := "Qizhen Ruan 阮奇桢" } ] },
    plugins :=
      [ PluginEntry.inlineFn baiduPlugin,
        PluginEntry.moduleWithOptions (requireResolve searchLocalModuleName)
          searchLocalOptions,
        PluginEntry.modulePath ("./src/plugin/plugin-image-zoom") ],
    stylesheets :=
      [ { href := "https://cdn.jsdelivr.net/npm/katex@0.13.24/dist/katex.min.css",
          type := "text/css",
          integrity :=
            "sha384-odtC+0UGzzFL/6PNoE8rX/SPcQDXBJ+uRepguP4QkPCm2LBxH3FA3y+fKSiJ+AmM",
          crossorigin := "anonymous" } ] }

/-- Invoking the `injectHtmlTags` hook with the configuration object
threaded as explicit state.  The hook body at `src/docusaurus.config.js:88-91`
is a single return statement with no assignment, so its translation returns
the configuration it was given, alongside the hook result. -/
def runInjectHtmlTags (cfg : Config) (arg : JSValue) :
    Except String (JSValue × Config) :=
  (injectHtmlTags arg).map (fun tags => (tags, cfg))

/-- Claim C1: for any two invocations of the analytics plugin's
`injectHtmlTags` hook with any (possibly different) argument objects, the
returned injected tag is the identical literal value: the hook is
deterministic, pure and independent of its argument. -/
theorem injectHtmlTags_argument_independent
    (f₁ f₂ : List (String × JSValue)) :
    injectHtmlTags (JSValue.obj f₁) = injectHtmlTags (JSValue.obj f₂) := rfl

/-- Claim C2: whenever the `injectHtmlTags` hook returns, its result is an
object whose only field is `postBodyTags`, a one-element array containing
exactly the literal Baidu analytics script tag (so the tag goes to the
document body, not the head). -/
theorem injectHtmlTags_postBodyTags (v r : JSValue)
    (h : injectHtmlTags v = Except.ok r) :
    r = JSValue.obj
      [(("postBodyTags"), JSValue.arr [JSValue.str baiduScriptTag])] := by
  cases v <;> first
    | exact Except.noConfusion h
    | exact (Except.ok.inj h).symm

/-- Witness for claim C2 at the concrete argument `{}`. -/
theorem injectHtmlTags_postBodyTags_witness :
    JSValue.obj [(("postBodyTags"), JSValue.arr [JSValue.str baiduScriptTag])]
      = JSValue.obj
        [(("postBodyTags"), JSValue.arr [JSValue.str baiduScriptTag])] :=
  injectHtmlTags_postBodyTags (JSValue.obj []) _ rfl

/-- Counterexample to claim C3 as stated: invoked with an absent argument
(`undefined`), the hook does not return normally; destructuring the
parameter pattern throws a `TypeError`. -/
theorem injectHtmlTags_undefined_fails :
    injectHtmlTags JSValue.undefined
      = Except.error ("TypeError: Cannot destructure property of undefined") :=
  rfl

/-- Claim C3 (amended): for every argument other than `undefined` and
`null` — including every non-object primitive — the hook returns normally,
always with the same constant result (its body has no branching); on
`undefined` or `null` the parameter destructuring itself throws. -/
theorem injectHtmlTags_total_off_nullish (v : JSValue)
    (h₁ : v ≠ JSValue.undefined) (h₂ : v ≠ JSValue.null) :
    injectHtmlTags v = Except.ok (JSValue.obj
      [(("postBodyTags"), JSValue.arr [JSValue.str baiduScriptTag])]) := by
  cases v <;> first
    | rfl
    | exact absurd rfl h₁
    | exact absurd rfl h₂

/-- Witness for amended claim C3 at the concrete non-object argument `42`. -/
theorem injectHtmlTags_total_off_nullish_witness :
    injectHtmlTags (JSValue.num 42) = Except.ok (JSValue.obj
      [(("postBodyTags"), JSValue.arr [JSValue.str baiduScriptTag])]) :=
  injectHtmlTags_total_off_nullish (JSValue.num 42)
    (fun h => JSValue.noConfusion h) (fun h => JSValue.noConfusion h)

/-- Claim C4: the exported configuration carries `title`, `url` and
`baseUrl` fields, each a non-empty string. -/
theorem config_title_url_baseUrl_nonempty :
    config.title ≠ ("") ∧ config.url ≠ ("") ∧ config.baseUrl ≠ ("") := by
  refine ⟨?_, ?_, ?_⟩ <;> decide

/-- Claim C5: the second plugin registration hands the resolved
local-search module the fixed options mapping in which `language` is
exactly `["en", "zh"]`, `hashed` is `true`, and `docsRouteBasePath` is
`"/"`; the mapping is the constant `searchLocalOptions`. -/
theorem searchLocal_options_fixed :
    config.plugins.get? 1 = some (PluginEntry.moduleWithOptions
        (requireResolve searchLocalModuleName) searchLocalOptions)
    ∧ searchLocalOptions.lookup ("language")
        = some (JSValue.arr [JSValue.str ("en"), JSValue.str ("zh")])
    ∧ searchLocalOptions.lookup ("hashed") = some (JSValue.bool true)
    ∧ searchLocalOptions.lookup ("docsRouteBasePath")
        = some (JSValue.str ("/")) :=
  ⟨rfl, rfl, rfl, rfl⟩

/-- Claim C6: the broken-link policy flags are exactly `"throw"` for
`onBrokenLinks` and `"warn"` for `onBrokenMarkdownLinks`. -/
theorem config_broken_link_policy :
    config.onBrokenLinks = ("throw")
      ∧ config.onBrokenMarkdownLinks = ("warn") :=
  ⟨rfl, rfl⟩

/-- Claim C7: invoking the `injectHtmlTags` hook with the configuration
threaded as explicit state leaves the configuration unchanged — no code in
the repository writes to any field of the configuration object after its
construction. -/
theorem runInjectHtmlTags_preserves_config
    (cfg : Config) (arg tags : JSValue) (cfg₂ : Config)
    (h : runInjectHtmlTags cfg arg = Except.ok (tags, cfg₂)) :
    cfg₂ = cfg := by
  cases arg <;> first
    | exact Except.noConfusion h
    | exact congrArg Prod.snd (Except.ok.inj h).symm

/-- Witness for claim C7 at the exported configuration and argument `{}`. -/
theorem runInjectHtmlTags_preserves_config_witness : config = config :=
  runInjectHtmlTags_preserves_config config (JSValue.obj []) _ config rfl

/-- Claim C8: the `plugins` array has exactly three entries, in order: the
inline `baiduPlugin` function, the resolved local-search module with its
options mapping, and the image-zoom plugin path. -/
theorem config_plugins_exactly_three :
    config.plugins
      = [ PluginEntry.inlineFn baiduPlugin,
          PluginEntry.moduleWithOptions (requireResolve searchLocalModuleName)
            searchLocalOptions,
          PluginEntry.modulePath ("./src/plugin/plugin-image-zoom") ]
    ∧ config.plugins.length = 3 :=
  ⟨rfl, rfl⟩

/-- Claim C9: the docs route base path is declared consistently: the
classic preset's `routeBasePath`, the search plugin's `docsRouteBasePath`
and the top-level `baseUrl` all equal `"/"`. -/
theorem routeBasePath_consistent :
    config.presets
        = [{ presetName := "classic", options := classicPresetOptions }]
    ∧ classicPresetOptions.docs.routeBasePath = config.baseUrl
    ∧ searchLocalOptions.lookup ("docsRouteBasePath")
        = some (JSValue.str config.baseUrl)
    ∧ config.baseUrl = ("/") :=
  ⟨rfl, rfl, rfl, rfl⟩

/-- Claim C10: the search plugin options mapping has exactly the four keys
`hashed`, `language`, `docsRouteBasePath` and
`highlightSearchTermsOnTargetPage`, and the last of these is `true`. -/
theorem searchLocal_options_keys :
    searchLocalOptions.map Prod.fst
      = [ ("hashed"), ("language"), ("docsRouteBasePath"),
          ("highlightSearchTermsOnTargetPage") ]
    ∧ searchLocalOptions.lookup ("highlightSearchTermsOnTargetPage")
        = some (JSValue.bool true) :=
  ⟨rfl, rfl⟩
